import Mathlib

/-!
Verification of the library catalog application (Django app `catalog`).

The definitions below are a shallow embedding of `catalog/views.py` and
`catalog/admin.py`: each view becomes a pure Lean function over an explicit
state (lists of books, loans and search-history records). Timestamps and
dates are modelled as natural numbers (days / instants); GET parameters are
strings, with the absent parameter represented by the empty string, matching
`request.GET.get(key, "")`.
-/

namespace Catalog

/-- A `Book` row (catalog/models.py is not in src/; the field list is the one
the views and admin read: title, author, isbn, copies_total, category FK,
language, edition_year). -/
structure Book where
  bookId : Nat
  title : String
  author : String
  isbn : String
  copies_total : Nat
  category : Option Nat
  language : String
  edition_year : Option Nat
  deriving Repr, DecidableEq

/-- Modelled from the spec: the `Loan` row (catalog/models.py is not in src/).
Per the spec, a Loan holds a book reference, a borrower reference,
`borrowed_at` (creation timestamp), `due_date`, and a nullable `returned_at`
that is null while the loan is active. -/
structure Loan where
  loanId : Nat
  book : Nat
  user : Nat
  borrowed_at : Nat
  due_date : Nat
  returned_at : Option Nat
  deriving Repr, DecidableEq

/-- A `Category` row: identity plus name. -/
structure Category where
  catId : Nat
  name : String
  deriving Repr, DecidableEq

/-- A `SearchQuery` row, as created at views.py lines 178-193: actor, session
key, the free-text term `q` and the full parameter map. -/
structure SQRecord where
  user : Option Nat
  session_key : String
  q : List Char
  pDisponivel : Bool
  pCategoria : String
  pIdioma : List Char
  pAnoMin : String
  pAnoMax : String
  pOrdenar : String
  pTitle : List Char
  pAuthor : List Char
  pIsbn : List Char
  deriving Repr, DecidableEq

/-- The persistent state the views read and write. -/
structure DB where
  books : List Book
  loans : List Loan
  categories : List Category
  history : List SQRecord
  nextLoanId : Nat
  deriving Repr, DecidableEq

/-- `Loan.objects.filter(book=book, returned_at__isnull=True).count()`
(views.py line 320), also the `active_loans` annotation of line 49-51. -/
def activeLoans (loans : List Loan) (bookId : Nat) : Nat :=
  (loans.filter (fun l => l.book == bookId && l.returned_at == none)).length

/-- Outcome of `borrow_book` (views.py lines 306-329). -/
inductive BorrowOutcome where
  | httpNotFound
  | noCopiesAvailable
  | borrowed (loanId : Nat) (dueDate : Nat)
  deriving Repr, DecidableEq

/-- `borrow_book(request, book_id)` (views.py lines 306-329): 404 when the
book does not exist or the method is not POST; `NoCopiesAvailable` (error
message + redirect, no record) when the active-loan count is ≥ copies_total;
otherwise creates a Loan with `due_date = today + 14` and `returned_at` null
(`Modelled from the spec:` the Loan constructor defaults, models.py absent:
`borrowed_at = now`, `returned_at = null` on creation). -/
def borrow_book (db : DB) (userId bookId : Nat) (method : String)
    (today now : Nat) : BorrowOutcome × DB :=
  match db.books.find? (fun b => b.bookId == bookId) with
  | none => (.httpNotFound, db)
  | some book =>
    if method ≠ "POST" then (.httpNotFound, db)
    else
      let active := activeLoans db.loans bookId
      if active ≥ book.copies_total then (.noCopiesAvailable, db)
      else
        let due := today + 14
        let newLoan : Loan :=
          { loanId := db.nextLoanId, book := bookId, user := userId
            borrowed_at := now, due_date := due, returned_at := none }
        (.borrowed db.nextLoanId due,
         { db with loans := db.loans ++ [newLoan], nextLoanId := db.nextLoanId + 1 })

/-- Outcome of `return_book` (views.py lines 332-343). -/
inductive ReturnOutcome where
  | httpNotFound
  | alreadyReturned
  | returnedOk
  deriving Repr, DecidableEq

/-- Modelled from the spec: `Loan.mark_returned` (catalog/models.py is not in
src/) sets `returned_at = now` on the loan. -/
def markReturned (loans : List Loan) (loanId now : Nat) : List Loan :=
  loans.map (fun l => if l.loanId == loanId then { l with returned_at := some now } else l)

/-- `return_book(request, loan_id)` (views.py lines 332-343):
`get_object_or_404(Loan, id=loan_id, user=request.user)` — a single lookup
filtered by both the id and the requesting user, 404 when no row matches;
404 on non-POST; info message and no change when `returned_at` is already
set; otherwise `mark_returned()`. -/
def return_book (db : DB) (userId loanId : Nat) (method : String)
    (now : Nat) : ReturnOutcome × DB :=
  match db.loans.find? (fun l => l.loanId == loanId && l.user == userId) with
  | none => (.httpNotFound, db)
  | some loan =>
    if method ≠ "POST" then (.httpNotFound, db)
    else
      match loan.returned_at with
      | some _ => (.alreadyReturned, db)
      | none => (.returnedOk, { db with loans := markReturned db.loans loanId now })

/-- `admin_mark_returned(request, loan_id)` (views.py lines 369-378): staff
path, looks the loan up by id only, 404 on non-POST, marks it returned only
when `returned_at` is not yet set. -/
def admin_mark_returned (db : DB) (loanId : Nat) (method : String)
    (now : Nat) : DB :=
  match db.loans.find? (fun l => l.loanId == loanId) with
  | none => db
  | some loan =>
    if method ≠ "POST" then db
    else
      match loan.returned_at with
      | some _ => db
      | none => { db with loans := markReturned db.loans loanId now }

/-- `LoanAdmin.marcar_como_devolvido` (admin.py lines 39-48): for each
selected loan that is still active (`returned_at__isnull=True`), sets
`returned_at = now`. -/
def marcar_como_devolvido (db : DB) (selected : List Nat) (now : Nat) : DB :=
  { db with loans := db.loans.map (fun l =>
      if selected.contains l.loanId && l.returned_at == none
      then { l with returned_at := some now } else l) }

/-- Case folding of a text, character by character. -/
def lower (l : List Char) : List Char :=
  l.map Char.toLower

/-- Python `str.strip()` applied to a GET parameter: whitespace removed from
both ends (the result is kept as a character list). -/
def pyStrip (s : String) : List Char :=
  ((s.data.dropWhile Char.isWhitespace).reverse.dropWhile Char.isWhitespace).reverse

/-- Django `icontains`: case-insensitive substring match of the (already
stripped) `needle` in the field value `hay`. -/
def strContains (hay : String) (needle : List Char) : Bool :=
  decide (lower needle <:+: lower hay.data)

/-- Django `iexact`: case-insensitive equality. -/
def iexact (hay : String) (needle : List Char) : Bool :=
  lower hay.data == lower needle

/-- Python `str.isdigit()` on a GET parameter: non-empty and all digits. -/
def isDigits (s : String) : Bool :=
  !s.data.isEmpty && s.data.all Char.isDigit

/-- Python `int(...)` on an all-digit string. -/
def parseNat (s : String) : Nat :=
  s.data.foldl (fun n c => n * 10 + (c.toNat - 48)) 0

/-- Code-point lexicographic order on texts (the database's binary collation
for `order_by`). -/
def lexLe (a b : List Char) : Bool :=
  decide (a ≤ b)

/-- The GET parameters `book_list` reads; the empty string models an absent
parameter (`request.GET.get(key, "")` / `request.GET.get(key)` being falsy). -/
structure Request where
  user : Option Nat
  session_key : String
  q : String
  title : String
  author : String
  isbn : String
  disponivel : String
  categoria : String
  idioma : String
  ano_min : String
  ano_max : String
  ordenar : String
  mostrar : String
  exportParam : String
  suggest : String
  page : String
  deriving Repr

/-- A book annotated with its `active_loans` count (views.py lines 49-51). -/
def annotate (db : DB) : List (Book × Nat) :=
  db.books.map (fun b => (b, activeLoans db.loans b.bookId))

/-- The free-text / specific-field filter stage (views.py lines 53-69): when
the stripped `q` is non-empty, keep books whose title OR author OR ISBN
icontains `q`; otherwise apply each of the stripped title/author/isbn
parameters, when non-empty, as an icontains filter, ANDed. -/
def textFilter (req : Request) (bs : List (Book × Nat)) : List (Book × Nat) :=
  let q := pyStrip req.q
  let tp := pyStrip req.title
  let ap := pyStrip req.author
  let ip := pyStrip req.isbn
  if q ≠ [] then
    bs.filter (fun b =>
      strContains b.1.title q || strContains b.1.author q || strContains b.1.isbn q)
  else
    let bs1 := if tp ≠ [] then bs.filter (fun b => strContains b.1.title tp) else bs
    let bs2 := if ap ≠ [] then bs1.filter (fun b => strContains b.1.author ap) else bs1
    if ip ≠ [] then bs2.filter (fun b => strContains b.1.isbn ip) else bs2

/-- The remaining row filters (views.py lines 71-92): availability, category
id (applied only when all-digit), language `iexact`, and the inclusive
edition-year range (each bound applied only when all-digit; a NULL
`edition_year` fails a range lookup, as in SQL). -/
def rowFilters (req : Request) (bs : List (Book × Nat)) : List (Book × Nat) :=
  let bs1 := if req.disponivel = "1" then bs.filter (fun b => b.2 < b.1.copies_total) else bs
  let bs2 :=
    if req.categoria.data ≠ [] && isDigits req.categoria then
      bs1.filter (fun b => b.1.category == some (parseNat req.categoria))
    else bs1
  let bs3 :=
    if pyStrip req.idioma ≠ [] then
      bs2.filter (fun b => iexact b.1.language (pyStrip req.idioma))
    else bs2
  let bs4 :=
    if req.ano_min.data ≠ [] && isDigits req.ano_min then
      bs3.filter (fun b =>
        match b.1.edition_year with
        | some y => parseNat req.ano_min ≤ y
        | none => false)
    else bs3
  if req.ano_max.data ≠ [] && isDigits req.ano_max then
    bs4.filter (fun b =>
      match b.1.edition_year with
      | some y => y ≤ parseNat req.ano_max
      | none => false)
  else bs4

/-- The computed `disponiveis` annotation for the availability sort
(views.py line 100): `copies_total - active_loans` as SQL integer
arithmetic. -/
def availKey (b : Book × Nat) : Int :=
  (b.1.copies_total : Int) - (b.2 : Int)

/-- A two-level lexicographic comparison: primary key `f` under `leB`,
ties resolved by `leG`. -/
def lexPair [DecidableEq β] (f : α → β) (leB : β → β → Bool)
    (leG : α → α → Bool) (a b : α) : Bool :=
  if f a = f b then leG a b else leB (f a) (f b)

/-- Comparison used by `order_by(Lower("title"))` (views.py line 102). -/
def leTitle (a b : Book × Nat) : Bool :=
  lexLe (lower a.1.title.data) (lower b.1.title.data)

/-- Comparison used by `order_by(Lower("author"), "title")`
(views.py line 97): case-folded author, ties broken by raw title. -/
def leAuthor (a b : Book × Nat) : Bool :=
  lexPair (fun x => lower x.1.author.data) lexLe
    (fun x y => lexLe x.1.title.data y.1.title.data) a b

/-- Comparison used by `order_by("disponiveis", "title")`
(views.py line 100): the computed availability, ties broken by title. -/
def leDisp (a b : Book × Nat) : Bool :=
  lexPair availKey (fun x y => decide (x ≤ y))
    (fun x y => lexLe x.1.title.data y.1.title.data) a b

/-- Insert into a list, before the first element not below the inserted one:
the step of the comparison sort modelling `order_by`. -/
def insertSorted (le : α → α → Bool) (a : α) : List α → List α
  | [] => [a]
  | b :: bs => if le a b then a :: b :: bs else b :: insertSorted le a bs

/-- A comparison sort (`ORDER BY` produces some ordering consistent with the
requested keys; we model it by insertion sort, which is executable and
stable). -/
def sortBy (le : α → α → Bool) : List α → List α
  | [] => []
  | a :: as' => insertSorted le a (sortBy le as')

/-- The sort stage (views.py lines 94-102): always ascending, keyed by the
`ordenar` parameter, default `title`. -/
def sortStage (ordenar : String) (bs : List (Book × Nat)) : List (Book × Nat) :=
  if ordenar = "author" then sortBy leAuthor bs
  else if ordenar = "disponibilidade" then sortBy leDisp bs
  else sortBy leTitle bs

/-- The ordered, filtered, annotated queryset `qs` as it stands at
views.py line 103. -/
def pipeline (db : DB) (req : Request) : List (Book × Nat) :=
  sortStage (if req.ordenar = "" then "title" else req.ordenar)
    (rowFilters req (textFilter req (annotate db)))

/-- Fixed page size 20: the pages `qs[0:20], qs[20:40], ...` produced by
`Paginator(qs, 20)` (views.py line 166). -/
def chunkPages : List (Book × Nat) → List (List (Book × Nat))
  | [] => []
  | a :: as' => (a :: as').take 20 :: chunkPages ((a :: as').drop 20)
  termination_by l => l.length
  decreasing_by simp [List.length_drop]; omega

/-- `Paginator.get_page` (views.py lines 166-169): a non-integer page
parameter yields page 1, a page number below 1 or past the end yields the
last page; an empty queryset has a single empty page. -/
def getPage (bs : List (Book × Nat)) (pageParam : String) : List (Book × Nat) :=
  let pages := chunkPages bs
  let numPages := max pages.length 1
  let n := if isDigits pageParam then parseNat pageParam else 1
  let n := if n < 1 then numPages else min n numPages
  (pages.getD (n - 1) [])

/-- The response `book_list` produces: autocomplete JSON, a CSV attachment,
an XLSX attachment (or the 500 error when openpyxl is missing), or the HTML
listing carrying the displayed books and whether it was paginated. -/
inductive Response where
  | suggestions (titles authors isbns : List String)
  | csvFile (rows : List (List String))
  | xlsxFile (rows : List (List String))
  | openpyxlMissing
  | listing (books : List (Book × Nat)) (paginated : Bool)
  deriving Repr

/-- One export row (views.py lines 118-128 and 142-152): title, author,
ISBN, `max(copies_total - active_loans, 0)`, category name (empty if none),
language, edition year (empty if absent). -/
def exportRow (db : DB) (b : Book × Nat) : List String :=
  [b.1.title, b.1.author, b.1.isbn,
   toString (max ((b.1.copies_total : Int) - (b.2 : Int)) 0),
   (match b.1.category with
    | some cid => ((db.categories.find? (fun c => c.catId == cid)).map Category.name).getD ""
    | none => ""),
   b.1.language,
   (match b.1.edition_year with | some y => toString y | none => "")]

/-- The SearchQuery row created at views.py lines 178-193. -/
def mkSQRecord (req : Request) : SQRecord :=
  { user := req.user, session_key := req.session_key, q := pyStrip req.q
    pDisponivel := req.disponivel = "1", pCategoria := req.categoria
    pIdioma := pyStrip req.idioma, pAnoMin := req.ano_min, pAnoMax := req.ano_max
    pOrdenar := (if req.ordenar = "" then "title" else req.ordenar)
    pTitle := pyStrip req.title, pAuthor := pyStrip req.author
    pIsbn := pyStrip req.isbn }

/-- The `any([...])` guard of views.py line 172: some filter or term used
(the truthiness of each of the nine collected values). -/
def anyFilterUsed (req : Request) : Bool :=
  decide (pyStrip req.q ≠ []) || decide (pyStrip req.title ≠ []) ||
    decide (pyStrip req.author ≠ []) || decide (pyStrip req.isbn ≠ []) ||
    decide (req.disponivel = "1") || decide (req.categoria.data ≠ []) ||
    decide (pyStrip req.idioma ≠ []) || decide (req.ano_min.data ≠ []) ||
    decide (req.ano_max.data ≠ [])

/-- `book_list(request)` (views.py lines 31-214): builds the filtered,
sorted queryset; answers the suggestion request (line 105) or the CSV/XLSX
export (lines 113, 134) before anything is logged; otherwise paginates
(lines 160-169), records the SearchQuery when some filter or term was used
(lines 171-195) and renders the listing. `openpyxl` tells whether the
optional openpyxl import succeeds. -/
def book_list (db : DB) (req : Request) (openpyxl : Bool) : Response × DB :=
  let qs := pipeline db req
  if req.suggest = "1" && decide (pyStrip req.q ≠ []) then
    (.suggestions ((qs.map (fun b => b.1.title)).take 8)
      ((qs.map (fun b => b.1.author)).take 8)
      ((qs.map (fun b => b.1.isbn)).take 8), db)
  else if req.exportParam = "csv" then
    (.csvFile (qs.map (exportRow db)), db)
  else if req.exportParam = "xlsx" then
    if openpyxl then (.xlsxFile (qs.map (exportRow db)), db)
    else (.openpyxlMissing, db)
  else
    let (books, paginated) :=
      if req.mostrar = "todos" then (qs, false)
      else (getPage qs req.page, true)
    let db' :=
      if anyFilterUsed req then { db with history := db.history ++ [mkSQRecord req] }
      else db
    (.listing books paginated, db')

/-! Concrete fixtures used to instantiate the theorems below. -/

/-- Fixture: a book with two copies. -/
def bookA : Book :=
  { bookId := 1, title := "Alpha", author := "Orwell", isbn := "111",
    copies_total := 2, category := some 1, language := "en", edition_year := some 1949 }

/-- Fixture: a book with no copies at all. -/
def bookB : Book :=
  { bookId := 2, title := "Beta", author := "Zed", isbn := "222",
    copies_total := 0, category := none, language := "pt", edition_year := none }

/-- Fixture: a book with one copy. -/
def bookC : Book :=
  { bookId := 3, title := "Gamma", author := "orwellian", isbn := "333",
    copies_total := 1, category := some 2, language := "en", edition_year := some 2000 }

/-- Fixture: a loan of `bookA` by user 1, already returned at time 50. -/
def loanRet : Loan :=
  { loanId := 1, book := 1, user := 1, borrowed_at := 10, due_date := 24,
    returned_at := some 50 }

/-- Fixture: an active loan of `bookA` by user 1. -/
def loanAct : Loan :=
  { loanId := 2, book := 1, user := 1, borrowed_at := 60, due_date := 74,
    returned_at := none }

/-- Fixture: a database with three books and two loans. -/
def dbX : DB :=
  { books := [bookA, bookB, bookC], loans := [loanRet, loanAct],
    categories := [⟨1, "Fiction"⟩, ⟨2, "Science"⟩], history := [], nextLoanId := 3 }

/-- Fixture: a request with every parameter absent. -/
def reqBase : Request :=
  { user := some 1, session_key := "s", q := "", title := "", author := "",
    isbn := "", disponivel := "", categoria := "", idioma := "", ano_min := "",
    ano_max := "", ordenar := "", mostrar := "", exportParam := "", suggest := "",
    page := "" }

end Catalog

namespace Catalog

/-! Generic lemmas about the comparison sort and the lexicographic-pair
comparison. -/

theorem insertSorted_perm (le : α → α → Bool) (a : α) (l : List α) :
    (insertSorted le a l).Perm (a :: l) := by
  induction l with
  | nil => exact List.Perm.refl _
  | cons b bs ih =>
    simp only [insertSorted]
    split
    · exact List.Perm.refl _
    · exact (ih.cons b).trans (List.Perm.swap a b bs)

theorem sortBy_perm (le : α → α → Bool) (l : List α) : (sortBy le l).Perm l := by
  induction l with
  | nil => exact List.Perm.refl _
  | cons a as' ih => exact (insertSorted_perm le a (sortBy le as')).trans (ih.cons a)

theorem insertSorted_pairwise (le : α → α → Bool)
    (htrans : ∀ x y z, le x y = true → le y z = true → le x z = true)
    (htot : ∀ x y, le x y = true ∨ le y x = true)
    (a : α) (l : List α) (hl : l.Pairwise (fun x y => le x y = true)) :
    (insertSorted le a l).Pairwise (fun x y => le x y = true) := by
  induction l with
  | nil => simp [insertSorted]
  | cons b bs ih =>
    rw [List.pairwise_cons] at hl
    obtain ⟨hb, hbs⟩ := hl
    simp only [insertSorted]
    split
    · rename_i hab
      rw [List.pairwise_cons]
      refine ⟨?_, List.pairwise_cons.mpr ⟨hb, hbs⟩⟩
      intro y hy
      rcases List.mem_cons.mp hy with rfl | hy
      · exact hab
      · exact htrans a b y hab (hb y hy)
    · rename_i hab
      rw [List.pairwise_cons]
      refine ⟨?_, ih hbs⟩
      intro y hy
      have hy' : y = a ∨ y ∈ bs := by
        have hmem := (insertSorted_perm le a bs).mem_iff.mp hy
        simpa using hmem
      rcases hy' with rfl | hmem
      · rcases htot y b with h' | h'
        · exact absurd h' hab
        · exact h'
      · exact hb y hmem

theorem sortBy_pairwise (le : α → α → Bool)
    (htrans : ∀ x y z, le x y = true → le y z = true → le x z = true)
    (htot : ∀ x y, le x y = true ∨ le y x = true)
    (l : List α) : (sortBy le l).Pairwise (fun x y => le x y = true) := by
  induction l with
  | nil => simp [sortBy]
  | cons a as' ih => exact insertSorted_pairwise le htrans htot a (sortBy le as') ih

theorem lexPair_trans [DecidableEq β] (f : α → β) (leB : β → β → Bool)
    (leG : α → α → Bool)
    (hBtrans : ∀ x y z, leB x y = true → leB y z = true → leB x z = true)
    (hBanti : ∀ x y, leB x y = true → leB y x = true → x = y)
    (hGtrans : ∀ x y z, leG x y = true → leG y z = true → leG x z = true) :
    ∀ a b c, lexPair f leB leG a b = true → lexPair f leB leG b c = true →
      lexPair f leB leG a c = true := by
  intro a b c hab hbc
  unfold lexPair at *
  by_cases h1 : f a = f b <;> by_cases h2 : f b = f c
  · rw [if_pos h1] at hab
    rw [if_pos h2] at hbc
    rw [if_pos (h1.trans h2)]
    exact hGtrans a b c hab hbc
  · rw [if_pos h1] at hab
    rw [if_neg h2] at hbc
    have hac : f a ≠ f c := fun h => h2 (h1.symm.trans h)
    rw [if_neg hac, h1]
    exact hbc
  · rw [if_neg h1] at hab
    rw [if_pos h2] at hbc
    have hac : f a ≠ f c := fun h => h1 (h.trans h2.symm)
    rw [if_neg hac, ← h2]
    exact hab
  · rw [if_neg h1] at hab
    rw [if_neg h2] at hbc
    have hac : f a ≠ f c := by
      intro h
      have hba : leB (f b) (f a) = true := by rw [h]; exact hbc
      exact h1 (hBanti (f a) (f b) hab hba)
    rw [if_neg hac]
    exact hBtrans (f a) (f b) (f c) hab hbc

theorem lexPair_total [DecidableEq β] (f : α → β) (leB : β → β → Bool)
    (leG : α → α → Bool)
    (hBtot : ∀ x y, leB x y = true ∨ leB y x = true)
    (hGtot : ∀ x y, leG x y = true ∨ leG y x = true) :
    ∀ a b, lexPair f leB leG a b = true ∨ lexPair f leB leG b a = true := by
  intro a b
  unfold lexPair
  by_cases h : f a = f b
  · rw [if_pos h, if_pos h.symm]
    exact hGtot a b
  · rw [if_neg h, if_neg (Ne.symm h)]
    exact hBtot (f a) (f b)

theorem lexLe_trans : ∀ x y z, lexLe x y = true → lexLe y z = true → lexLe x z = true := by
  intro x y z hxy hyz
  simp only [lexLe, decide_eq_true_eq] at *
  exact le_trans hxy hyz

theorem lexLe_total : ∀ x y, lexLe x y = true ∨ lexLe y x = true := by
  intro x y
  simp only [lexLe, decide_eq_true_eq]
  exact le_total x y

theorem lexLe_anti : ∀ x y, lexLe x y = true → lexLe y x = true → x = y := by
  intro x y hxy hyx
  simp only [lexLe, decide_eq_true_eq] at *
  exact le_antisymm hxy hyx

theorem leTitleRaw_trans :
    ∀ x y z : Book × Nat, lexLe x.1.title.data y.1.title.data = true →
      lexLe y.1.title.data z.1.title.data = true →
      lexLe x.1.title.data z.1.title.data = true :=
  fun x y z => lexLe_trans x.1.title.data y.1.title.data z.1.title.data

theorem leTitleRaw_total :
    ∀ x y : Book × Nat, lexLe x.1.title.data y.1.title.data = true ∨
      lexLe y.1.title.data x.1.title.data = true :=
  fun x y => lexLe_total x.1.title.data y.1.title.data

theorem leDisp_trans : ∀ x y z, leDisp x y = true → leDisp y z = true →
    leDisp x z = true :=
  lexPair_trans availKey (fun x y => decide (x ≤ y)) _
    (fun x y z hxy hyz => by
      simp only [decide_eq_true_eq] at *; exact le_trans hxy hyz)
    (fun x y hxy hyx => by
      simp only [decide_eq_true_eq] at *; exact le_antisymm hxy hyx)
    leTitleRaw_trans

theorem leDisp_total : ∀ x y, leDisp x y = true ∨ leDisp y x = true :=
  lexPair_total availKey (fun x y => decide (x ≤ y)) _
    (fun x y => by simp only [decide_eq_true_eq]; exact le_total x y)
    leTitleRaw_total

/-! Helper lemmas about `markReturned` and loan preservation. -/

theorem find?_markReturned (loans : List Loan) (lid uid now : Nat) :
    (markReturned loans lid now).find? (fun x => x.loanId == lid && x.user == uid) =
      (loans.find? (fun x => x.loanId == lid && x.user == uid)).map
        (fun l => if l.loanId == lid then { l with returned_at := some now } else l) := by
  unfold markReturned
  rw [List.find?_map]
  have hpf : ((fun x : Loan => x.loanId == lid && x.user == uid) ∘ fun l =>
      if l.loanId == lid then { l with returned_at := some now } else l) =
      (fun x : Loan => x.loanId == lid && x.user == uid) := by
    funext x
    by_cases h : x.loanId == lid <;> simp [Function.comp, h]
  rw [hpf]

theorem map_keep (loans : List Loan) (l : Loan) (f : Loan → Loan)
    (hf : ∀ x, (f x).loanId = x.loanId) (hfix : f l = l) (hl : l ∈ loans)
    (huniq : ∀ x ∈ loans, x.loanId = l.loanId → x = l) :
    l ∈ loans.map f ∧ ∀ l' ∈ loans.map f, l'.loanId = l.loanId → l' = l := by
  constructor
  · exact hfix ▸ List.mem_map_of_mem f hl
  · intro l' hl' heq
    rcases List.mem_map.mp hl' with ⟨x, hx, rfl⟩
    rw [hf x] at heq
    rw [huniq x hx heq, hfix]

/-! The claims. -/

/-- C1: for every existing book, when the active-loan count (loans with
`returned_at` null) is ≥ `copies_total`, a POST Borrow fails with
`NoCopiesAvailable` and leaves the whole state — in particular the set of
loans for that book — unchanged. -/
theorem borrow_full_fails (db : DB) (userId bookId today now : Nat) (b : Book)
    (hfind : db.books.find? (fun x => x.bookId == bookId) = some b)
    (hfull : b.copies_total ≤ activeLoans db.loans bookId) :
    borrow_book db userId bookId "POST" today now = (.noCopiesAvailable, db) := by
  simp [borrow_book, hfind, hfull]

/-- Witness for C1: in `dbX`, book 2 has `copies_total = 0` and zero active
loans, so Borrow fails with `NoCopiesAvailable` and changes nothing. -/
theorem borrow_full_fails_witness :
    borrow_book dbX 7 2 "POST" 100 100 = (.noCopiesAvailable, dbX) :=
  borrow_full_fails dbX 7 2 100 100 bookB (by decide) (by decide)

/-- C2: for every existing book whose active-loan count is strictly below
`copies_total`, a POST Borrow succeeds, reporting the created loan, and
appends exactly one new loan for that book with `returned_at` null and
`due_date = today + 14`. -/
theorem borrow_creates_loan (db : DB) (userId bookId today now : Nat) (b : Book)
    (hfind : db.books.find? (fun x => x.bookId == bookId) = some b)
    (havail : activeLoans db.loans bookId < b.copies_total) :
    borrow_book db userId bookId "POST" today now =
      (.borrowed db.nextLoanId (today + 14),
       { db with
          loans := db.loans ++
            [{ loanId := db.nextLoanId, book := bookId, user := userId,
               borrowed_at := now, due_date := today + 14, returned_at := none }],
          nextLoanId := db.nextLoanId + 1 }) := by
  simp [borrow_book, hfind, Nat.not_le.mpr havail]

/-- Witness for C2: in `dbX`, book 1 has 2 copies and 1 active loan, so a
POST Borrow by user 7 at day 100 creates loan 3 due day 114. -/
theorem borrow_creates_loan_witness :
    borrow_book dbX 7 1 "POST" 100 100 =
      (.borrowed 3 114,
       { dbX with
          loans := dbX.loans ++
            [{ loanId := 3, book := 1, user := 7, borrowed_at := 100,
               due_date := 114, returned_at := none }],
          nextLoanId := 4 }) :=
  borrow_creates_loan dbX 7 1 100 100 bookA (by decide) (by decide)

/-- C3: Return is idempotent. On a loan whose `returned_at` is already set,
a POST Return succeeds as a no-op signalling `AlreadyReturned` and changes
nothing; on an active loan, the first Return performs the single state
transition and a second Return reports `AlreadyReturned` without altering
the state again. -/
theorem return_idempotent (db : DB) (userId loanId now now2 t : Nat) (l : Loan)
    (hfind : db.loans.find? (fun x => x.loanId == loanId && x.user == userId) = some l) :
    (l.returned_at = some t →
       return_book db userId loanId "POST" now2 = (.alreadyReturned, db)) ∧
    (l.returned_at = none →
       return_book db userId loanId "POST" now =
         (.returnedOk, { db with loans := markReturned db.loans loanId now }) ∧
       return_book { db with loans := markReturned db.loans loanId now }
           userId loanId "POST" now2 =
         (.alreadyReturned, { db with loans := markReturned db.loans loanId now })) := by
  have hp := List.find?_some hfind
  have hid : l.loanId = loanId := by
    simp only [Bool.and_eq_true, beq_iff_eq] at hp
    exact hp.1
  constructor
  · intro h
    simp [return_book, hfind, h]
  · intro h
    refine ⟨by simp [return_book, hfind, h], ?_⟩
    simp [return_book, find?_markReturned, hfind, hid]

/-- Witness for C3: in `dbX`, loan 1 (already returned at 50) is a no-op for
its borrower, and loan 2 (active) transitions exactly once over two Returns. -/
theorem return_idempotent_witness :
    (return_book dbX 1 1 "POST" 99 = (.alreadyReturned, dbX)) ∧
    (return_book dbX 1 2 "POST" 80 =
       (.returnedOk, { dbX with loans := markReturned dbX.loans 2 80 }) ∧
     return_book { dbX with loans := markReturned dbX.loans 2 80 } 1 2 "POST" 99 =
       (.alreadyReturned, { dbX with loans := markReturned dbX.loans 2 80 })) :=
  ⟨(return_idempotent dbX 1 1 99 99 50 loanRet (by decide)).1 (by decide),
   (return_idempotent dbX 1 2 80 99 0 loanAct (by decide)).2 (by decide)⟩

/-- C4: a loan never reopens. For every loan `l` whose `returned_at` is
already set, each state-changing operation of the system — Borrow, the
borrower's Return, the staff single mark-as-returned and the admin bulk
mark-as-returned action — keeps `l` in the loan table unchanged, and `l`
remains the unique loan with its id, so its `returned_at` is neither
modified nor set back to null. (`huniq`/`hfresh` capture primary-key
uniqueness and freshness of the next id.) -/
theorem loan_never_reopens (db : DB) (l : Loan) (t : Nat)
    (hl : l ∈ db.loans) (hret : l.returned_at = some t)
    (huniq : ∀ x ∈ db.loans, x.loanId = l.loanId → x = l)
    (hfresh : l.loanId ≠ db.nextLoanId) :
    (∀ userId bookId method today now,
       l ∈ (borrow_book db userId bookId method today now).2.loans ∧
       ∀ l' ∈ (borrow_book db userId bookId method today now).2.loans,
         l'.loanId = l.loanId → l' = l) ∧
    (∀ userId loanId method now,
       l ∈ (return_book db userId loanId method now).2.loans ∧
       ∀ l' ∈ (return_book db userId loanId method now).2.loans,
         l'.loanId = l.loanId → l' = l) ∧
    (∀ loanId method now,
       l ∈ (admin_mark_returned db loanId method now).loans ∧
       ∀ l' ∈ (admin_mark_returned db loanId method now).loans,
         l'.loanId = l.loanId → l' = l) ∧
    (∀ selected now,
       l ∈ (marcar_como_devolvido db selected now).loans ∧
       ∀ l' ∈ (marcar_como_devolvido db selected now).loans,
         l'.loanId = l.loanId → l' = l) := by
  have base : l ∈ db.loans ∧ ∀ l' ∈ db.loans, l'.loanId = l.loanId → l' = l :=
    ⟨hl, huniq⟩
  refine ⟨?_, ?_, ?_, ?_⟩
  · intro userId bookId method today now
    unfold borrow_book
    cases hfb : db.books.find? (fun x => x.bookId == bookId) with
    | none => exact base
    | some b =>
      by_cases hm : method ≠ "POST"
      · simp only [if_pos hm]
        exact base
      · simp only [if_neg hm]
        by_cases hc : activeLoans db.loans bookId ≥ b.copies_total
        · simp only [if_pos hc]
          exact base
        · simp only [if_neg hc]
          constructor
          · exact List.mem_append_left _ hl
          · intro l' hl' heq
            rcases List.mem_append.mp hl' with h | h
            · exact huniq l' h heq
            · simp only [List.mem_singleton] at h
              subst h
              simp only at heq
              exact absurd heq.symm (by simpa using hfresh)
  · intro userId loanId method now
    unfold return_book
    cases hfl : db.loans.find? (fun x => x.loanId == loanId && x.user == userId) with
    | none => exact base
    | some l0 =>
      by_cases hm : method ≠ "POST"
      · simp only [if_pos hm]
        exact base
      · simp only [if_neg hm]
        cases hr0 : l0.returned_at with
        | some s => exact base
        | none =>
          simp only
          have hne : l.loanId ≠ loanId := by
            intro h
            have hp := List.find?_some hfl
            simp only [Bool.and_eq_true, beq_iff_eq] at hp
            have : l0 = l := huniq l0 (List.mem_of_find?_eq_some hfl) (hp.1.trans h.symm)
            rw [this, hret] at hr0
            exact Option.noConfusion hr0
          exact map_keep db.loans l _ (fun x => by
              by_cases hx : x.loanId == loanId <;> simp [hx])
            (by simp [hne]) hl huniq
  · intro loanId method now
    unfold admin_mark_returned
    cases hfl : db.loans.find? (fun x => x.loanId == loanId) with
    | none => exact base
    | some l0 =>
      by_cases hm : method ≠ "POST"
      · simp only [if_pos hm]
        exact base
      · simp only [if_neg hm]
        cases hr0 : l0.returned_at with
        | some s => exact base
        | none =>
          simp only
          have hne : l.loanId ≠ loanId := by
            intro h
            have hp := List.find?_some hfl
            simp only [beq_iff_eq] at hp
            have : l0 = l := huniq l0 (List.mem_of_find?_eq_some hfl) (hp.trans h.symm)
            rw [this, hret] at hr0
            exact Option.noConfusion hr0
          exact map_keep db.loans l _ (fun x => by
              by_cases hx : x.loanId == loanId <;> simp [markReturned, hx])
            (by simp [markReturned, hne]) hl huniq
  · intro selected now
    unfold marcar_como_devolvido
    simp only
    exact map_keep db.loans l _ (fun x => by
        show (if selected.contains x.loanId && x.returned_at == none
              then { x with returned_at := some now } else x).loanId = x.loanId
        split <;> rfl)
      (by simp [hret]) hl huniq

/-- Witness for C4: in `dbX`, the returned loan 1 survives unchanged through
a Borrow, a Return on it, the staff mark-as-returned on it, and a bulk
mark-as-returned selecting every loan. -/
theorem loan_never_reopens_witness :
    loanRet ∈ (borrow_book dbX 7 1 "POST" 100 100).2.loans ∧
    loanRet ∈ (return_book dbX 1 1 "POST" 99).2.loans ∧
    loanRet ∈ (admin_mark_returned dbX 1 "POST" 99).loans ∧
    loanRet ∈ (marcar_como_devolvido dbX [1, 2] 99).loans := by
  have h := loan_never_reopens dbX loanRet 50 (by decide) (by decide)
    (by decide) (by decide)
  exact ⟨(h.1 7 1 "POST" 100 100).1, (h.2.1 1 1 "POST" 99).1,
    (h.2.2.1 1 "POST" 99).1, (h.2.2.2 [1, 2] 99).1⟩

/-- C5 counterexample: in `dbX`, loan 1 exists and belongs to user 1, yet a
Return by user 2 produces exactly the same outcome and state as a Return on
the nonexistent loan id 999 — both are the HTTP 404 not-found outcome. The
code has no `NotOwner` outcome distinct from `LoanNotFound`: the single
`get_object_or_404(Loan, id=loan_id, user=request.user)` lookup conflates
the two cases. -/
theorem return_notOwner_counterexample :
    (∃ x ∈ dbX.loans, x.loanId = 1 ∧ x.user ≠ 2) ∧
    return_book dbX 2 1 "POST" 9 = (.httpNotFound, dbX) ∧
    return_book dbX 2 999 "POST" 9 = (.httpNotFound, dbX) := by
  refine ⟨⟨loanRet, by decide, by decide, by decide⟩, by decide, by decide⟩

/-- C5 amended: for every loan id such that no loan with that id belongs to
the acting user — in particular an existing loan whose borrower is someone
else — Return fails with the same HTTP 404 not-found outcome used for an
absent loan id, leaving the state unchanged; the code does not produce a
distinct `NotOwner` outcome. -/
theorem return_nonOwner_notFound (db : DB) (userId loanId now : Nat)
    (method : String)
    (hexists : ∃ x ∈ db.loans, x.loanId = loanId)
    (hown : ∀ x ∈ db.loans, x.loanId = loanId → x.user ≠ userId) :
    return_book db userId loanId method now = (.httpNotFound, db) := by
  have hfind : db.loans.find? (fun x => x.loanId == loanId && x.user == userId) = none := by
    rw [List.find?_eq_none]
    intro x hx
    simp only [Bool.and_eq_true, beq_iff_eq, not_and]
    intro h1
    exact hown x hx h1
  simp [return_book, hfind]

/-- Witness for the amended C5: user 2 calling Return on loan 1 (borrowed by
user 1) in `dbX` gets the not-found outcome with nothing changed. -/
theorem return_nonOwner_notFound_witness :
    return_book dbX 2 1 "POST" 9 = (.httpNotFound, dbX) :=
  return_nonOwner_notFound dbX 2 1 9 "POST" ⟨loanRet, by decide, by decide⟩
    (by decide)

/-- Helper for C6: a guarded filter written as an unconditional filter. -/
theorem filter_if_ne (s : List Char) (p : α → Bool) (l : List α) :
    (if s ≠ [] then l.filter p else l) =
      l.filter (fun x => decide (s = []) || p x) := by
  by_cases h : s = [] <;> simp [h]

/-- C6: when the stripped free-text term `q` is non-empty, the text-filter
stage returns exactly the books whose title OR author OR ISBN contains `q`
case-insensitively, and the specific-field parameters title/author/isbn
have no effect on it; when `q` is empty, each non-empty specific-field
parameter is applied as a case-insensitive substring filter and the three
are combined with AND. -/
theorem free_text_search (req : Request) (bs : List (Book × Nat))
    (t a i : String) :
    (pyStrip req.q ≠ [] →
       textFilter req bs = bs.filter (fun b =>
         strContains b.1.title (pyStrip req.q) ||
           strContains b.1.author (pyStrip req.q) ||
           strContains b.1.isbn (pyStrip req.q)) ∧
       textFilter req bs =
         textFilter { req with title := t, author := a, isbn := i } bs) ∧
    (pyStrip req.q = [] →
       textFilter req bs = bs.filter (fun b =>
         (decide (pyStrip req.title = []) ||
            strContains b.1.title (pyStrip req.title)) &&
         ((decide (pyStrip req.author = []) ||
             strContains b.1.author (pyStrip req.author)) &&
          (decide (pyStrip req.isbn = []) ||
             strContains b.1.isbn (pyStrip req.isbn))))) := by
  constructor
  · intro h
    constructor
    · simp [textFilter, h]
    · simp [textFilter, h]
  · intro h
    show (if pyStrip req.q ≠ [] then _ else _) = _
    rw [if_neg (by simpa using h)]
    rw [filter_if_ne, filter_if_ne, filter_if_ne, List.filter_filter,
      List.filter_filter]
    apply List.filter_congr
    intro x _
    cases hT : decide (pyStrip req.title = []) || strContains x.1.title (pyStrip req.title) <;>
      cases hA : decide (pyStrip req.author = []) || strContains x.1.author (pyStrip req.author) <;>
      cases hI : decide (pyStrip req.isbn = []) || strContains x.1.isbn (pyStrip req.isbn) <;>
      simp [hT, hA, hI]

/-- Witness for C6: with `q = " Orwell "`, books 1 and 3 of `dbX` match by
author regardless of a supplied `title` filter; with `q` empty, the
`author = "orwell"` and `isbn = "3"` filters AND together to book 3 only. -/
theorem free_text_search_witness :
    (textFilter { reqBase with q := " Orwell ", title := "Beta" } (annotate dbX)).map
        (fun b => b.1.bookId) = [1, 3] ∧
    (textFilter { reqBase with author := "orwell", isbn := "3" } (annotate dbX)).map
        (fun b => b.1.bookId) = [3] := by
  have h1 := ((free_text_search { reqBase with q := " Orwell ", title := "Beta" }
    (annotate dbX) "x" "y" "z").1 (by decide)).1
  have h2 := (free_text_search { reqBase with author := "orwell", isbn := "3" }
    (annotate dbX) "x" "y" "z").2 (by decide)
  rw [h1, h2]
  constructor <;> decide

/-- C7: sorting with `ordenar=disponibilidade` yields a permutation of the
filtered set ordered ascending by the computed `copies_total -
active_loan_count`, ties broken by title; in particular the `dbX` books
with availabilities [2, 0, 1] come out in availability order [0, 1, 2]. -/
theorem sort_disponibilidade (bs : List (Book × Nat)) :
    (sortStage "disponibilidade" bs).Perm bs ∧
    (sortStage "disponibilidade" bs).Pairwise (fun a b =>
      availKey a < availKey b ∨
        (availKey a = availKey b ∧ a.1.title.data ≤ b.1.title.data)) ∧
    (sortStage "disponibilidade" [(bookA, 0), (bookB, 0), (bookC, 0)]).map
        availKey = [0, 1, 2] := by
  have hstage : sortStage "disponibilidade" bs = sortBy leDisp bs := by
    unfold sortStage
    rw [if_neg (by decide), if_pos rfl]
  refine ⟨?_, ?_, by decide⟩
  · rw [hstage]
    exact sortBy_perm leDisp bs
  · rw [hstage]
    refine (sortBy_pairwise leDisp leDisp_trans leDisp_total bs).imp ?_
    intro a b h
    unfold leDisp lexPair at h
    by_cases he : availKey a = availKey b
    · rw [if_pos he] at h
      simp only [lexLe, decide_eq_true_eq] at h
      exact Or.inr ⟨he, h⟩
    · rw [if_neg he] at h
      simp only [decide_eq_true_eq] at h
      exact Or.inl (lt_of_le_of_ne h he)

/-- Helper for C8: every page produced by the fixed page size is at most 20
books long. -/
theorem chunkPages_length_le (l : List (Book × Nat)) :
    ∀ p ∈ chunkPages l, p.length ≤ 20 := by
  induction l using chunkPages.induct with
  | case1 => intro p hp; simp [chunkPages] at hp
  | case2 a as' ih =>
    intro p hp
    rw [chunkPages] at hp
    rcases List.mem_cons.mp hp with rfl | hp
    · simpa using List.length_take_le 20 (a :: as')
    · exact ih p hp

/-- Helper for C8: the concatenation of the pages is the whole ordered
result. -/
theorem chunkPages_flatten (l : List (Book × Nat)) :
    (chunkPages l).flatten = l := by
  induction l using chunkPages.induct with
  | case1 => simp [chunkPages]
  | case2 a as' ih =>
    rw [chunkPages]
    simp only [List.flatten_cons, ih]
    exact List.take_append_drop 20 (a :: as')

/-- Helper for C8: indexing with a default yields the default or a member. -/
theorem getD_mem_or_nil (ps : List (List (Book × Nat))) (n : Nat) :
    ps.getD n [] = [] ∨ ps.getD n [] ∈ ps := by
  by_cases h : n < ps.length
  · right
    rw [List.getD_eq_getElem _ _ h]
    exact List.getElem_mem h
  · left
    exact List.getD_eq_default _ _ (Nat.le_of_not_lt h)

/-- Helper for C8: `get_page` returns the empty page or one of the fixed
pages. -/
theorem getPage_mem (l : List (Book × Nat)) (pageParam : String) :
    getPage l pageParam = [] ∨ getPage l pageParam ∈ chunkPages l := by
  unfold getPage
  exact getD_mem_or_nil _ _

/-- C8: with `mostrar=todos` the listing carries every book of the ordered
filtered result; otherwise the listing carries `get_page` of that result,
whose pages each hold at most 20 books and concatenate, in order, to the
unpaginated result. -/
theorem pagination_modes (db : DB) (req : Request) (openpyxl : Bool)
    (hs : ¬(req.suggest = "1" ∧ pyStrip req.q ≠ []))
    (hc : req.exportParam ≠ "csv") (hx : req.exportParam ≠ "xlsx") :
    (req.mostrar = "todos" →
       (book_list db req openpyxl).1 = .listing (pipeline db req) false) ∧
    (req.mostrar ≠ "todos" →
       (book_list db req openpyxl).1 =
         .listing (getPage (pipeline db req) req.page) true) ∧
    (∀ p ∈ chunkPages (pipeline db req), p.length ≤ 20) ∧
    (chunkPages (pipeline db req)).flatten = pipeline db req ∧
    (getPage (pipeline db req) req.page = [] ∨
       getPage (pipeline db req) req.page ∈ chunkPages (pipeline db req)) := by
  have hcond : ¬(req.suggest = "1" ∧ ¬pyStrip req.q = []) := by simpa using hs
  refine ⟨?_, ?_, chunkPages_length_le _, chunkPages_flatten _, getPage_mem _ _⟩
  · intro hm
    simp [book_list, hcond, hc, hx, hm]
  · intro hm
    simp [book_list, hcond, hc, hx, hm]

/-- Witness for C8: on `dbX` with no filters, show-all mode lists the whole
pipeline unpaginated and default mode lists its (single, ≤ 20 books) first
page. -/
theorem pagination_modes_witness :
    (book_list dbX { reqBase with mostrar := "todos" } true).1 =
      .listing (pipeline dbX { reqBase with mostrar := "todos" }) false ∧
    (book_list dbX reqBase true).1 =
      .listing (getPage (pipeline dbX reqBase) reqBase.page) true := by
  have h1 := pagination_modes dbX { reqBase with mostrar := "todos" } true
    (by decide) (by decide) (by decide)
  have h2 := pagination_modes dbX reqBase true (by decide) (by decide) (by decide)
  exact ⟨h1.1 rfl, h2.2.1 (by decide)⟩

/-- C9: on the listing path (no suggestion response, no export), exactly one
SearchQuery record is appended when at least one filter or free-text term is
non-empty — the `anyFilterUsed` disjunction over the nine collected
parameters — and none is appended when all are empty. -/
theorem history_recorded_iff (db : DB) (req : Request) (openpyxl : Bool)
    (hs : ¬(req.suggest = "1" ∧ pyStrip req.q ≠ []))
    (hc : req.exportParam ≠ "csv") (hx : req.exportParam ≠ "xlsx") :
    (anyFilterUsed req = true →
       (book_list db req openpyxl).2.history = db.history ++ [mkSQRecord req]) ∧
    (anyFilterUsed req = false →
       (book_list db req openpyxl).2.history = db.history) := by
  have hcond : ¬(req.suggest = "1" ∧ ¬pyStrip req.q = []) := by simpa using hs
  constructor <;> intro h <;>
    by_cases hm : req.mostrar = "todos" <;>
    simp [book_list, hcond, hc, hx, h, hm]

/-- Witness for C9: an unfiltered listing on `dbX` records nothing; adding
the single filter `categoria=1` records exactly one SearchQuery. -/
theorem history_recorded_iff_witness :
    (book_list dbX reqBase true).2.history = [] ∧
    (book_list dbX { reqBase with categoria := "1" } true).2.history =
      [mkSQRecord { reqBase with categoria := "1" }] := by
  have h0 := (history_recorded_iff dbX reqBase true (by decide) (by decide)
    (by decide)).2 (by decide)
  have h1 := (history_recorded_iff dbX { reqBase with categoria := "1" } true
    (by decide) (by decide) (by decide)).1 (by decide)
  rw [h0, h1]
  exact ⟨rfl, rfl⟩

/-- C10: a request answered by an export (`export=csv` or `export=xlsx`,
whether or not the workbook backend is available) or by the suggestion
response (`suggest=1` with a non-empty `q`) returns before the
history-recording step: the state, and so the SearchQuery store, is
unchanged even when filters or a term are present. -/
theorem export_suggest_skip_history (db : DB) (req : Request) (openpyxl : Bool)
    (h : req.exportParam = "csv" ∨ req.exportParam = "xlsx" ∨
         (req.suggest = "1" ∧ pyStrip req.q ≠ [])) :
    (book_list db req openpyxl).2 = db := by
  unfold book_list
  rcases Decidable.em (req.suggest = "1" ∧ ¬pyStrip req.q = []) with hsg | hsg
  · simp [hsg]
  · rcases h with h | h | h
    · simp [hsg, h]
    · by_cases hcsv : req.exportParam = "csv"
      · simp [hsg, hcsv]
      · cases openpyxl <;> simp [hsg, hcsv, h]
    · exact absurd ⟨h.1, by simpa using h.2⟩ hsg

/-- Witness for C10: in `dbX` with `q = "a"` (a filter that would otherwise
be logged), the CSV export, the XLSX export with and without the backend,
and the suggestion response all leave the state untouched. -/
theorem export_suggest_skip_history_witness :
    (book_list dbX { reqBase with q := "a", exportParam := "csv" } true).2 = dbX ∧
    (book_list dbX { reqBase with q := "a", exportParam := "xlsx" } false).2 = dbX ∧
    (book_list dbX { reqBase with q := "a", suggest := "1" } true).2 = dbX :=
  ⟨export_suggest_skip_history dbX { reqBase with q := "a", exportParam := "csv" }
     true (Or.inl rfl),
   export_suggest_skip_history dbX { reqBase with q := "a", exportParam := "xlsx" }
     false (Or.inr (Or.inl rfl)),
   export_suggest_skip_history dbX { reqBase with q := "a", suggest := "1" }
     true (Or.inr (Or.inr ⟨rfl, by decide⟩))⟩

end Catalog
